import Mathlib

/-!
Shallow embedding of `resource_aws_s3_bucket.go` (Terraform AWS provider,
S3 bucket resource): the four lifecycle functions `resourceAwsS3BucketCreate`,
`resourceAwsS3BucketRead`, `resourceAwsS3BucketUpdate`,
`resourceAwsS3BucketDelete` and the website sub-reconciler `updateWebsite`.

The AWS SDK connection (`s3conn`) is modelled as a `Gateway`: a record of
response functions, one per RPC the file issues.  The Terraform
`schema.ResourceData` is modelled as a `ResourceData` record holding the
resource id and the schema fields (`bucket`, `acl`, `website`,
`index_document`, `error_document`, `tags`).  Each lifecycle function returns
the Go `error` result (as `Except GoError Unit`), the resulting state record,
and the list of gateway requests issued, in order.

The tag helpers `setTagsS3`, `getTagSetS3`, `tagsToMapS3` live elsewhere in
the repository and are modelled from the spec (see their doc comments).
-/

/-- A Go `error` value as this file distinguishes them: either an
`aws.APIError` (carrying a StatusCode, matched by the type assertion
`err.(aws.APIError)` in Read) or any other error, reduced to its message
string (as produced by `fmt.Errorf`). -/
inductive GoError where
  | apiError (statusCode : Nat) (message : String)
  | strError (message : String)
deriving DecidableEq, Repr

/-- The string `%s` formatting of an error (its `Error()` text). -/
def GoError.errString : GoError → String
  | .apiError _ message => message
  | .strError message => message

/-- The check `awsError, ok := err.(aws.APIError); ok && awsError.StatusCode == 404`
from `resourceAwsS3BucketRead`: true exactly for an `aws.APIError` whose
status code is 404. -/
def GoError.isAWSNotFound : GoError → Bool
  | .apiError statusCode _ => statusCode == 404
  | .strError _ => false

/-- Wire-format tag entry (key, value). -/
abbrev S3Tag := String × String

/-- Tag mapping as stored in the schema field `tags`. -/
abbrev TagMap := List (String × String)

/-- One request issued to the provider gateway, with the arguments the Go
code puts in the request struct. -/
inductive S3Request where
  | createBucket (bucket acl : String) (locationConstraint : Option String)
  | headBucket (bucket : String)
  | deleteBucket (bucket : String)
  | putBucketWebsite (bucket : String) (indexSuffix errorKey : Option String)
  | deleteBucketWebsite (bucket : String)
  | getBucketTagging (bucket : String)
  | putBucketTagging (bucket : String) (tagSet : List S3Tag)
deriving DecidableEq, Repr

/-- The provider gateway (`s3conn`): for each RPC, the response the remote
end would give to a request with those arguments.  `none` / `Except.ok`
means success; `some e` / `Except.error e` is the returned Go error. -/
structure Gateway where
  createBucket : String → String → Option String → Option GoError
  headBucket : String → Option GoError
  deleteBucket : String → Option GoError
  putBucketWebsite : String → Option String → Option String → Option GoError
  deleteBucketWebsite : String → Option GoError
  getBucketTagging : String → Except GoError (List S3Tag)
  putBucketTagging : String → List S3Tag → Option GoError

/-- The `schema.ResourceData` record: the resource id (`d.Id()` / `d.SetId`)
and the schema fields read with `d.Get` / written with `d.Set`. -/
structure ResourceData where
  id : String
  bucket : String
  acl : String
  website : Bool
  index_document : String
  error_document : String
  tags : TagMap
deriving DecidableEq, Repr

/-- The result triple of one lifecycle call: the returned Go error (if any),
the resource data after the call, and the gateway requests issued in order. -/
abbrev LifecycleResult := Except GoError Unit × ResourceData × List S3Request

/-- Modelled from the spec: conversion of the desired tag mapping to the
provider's wire list format (ReconcileTags, Tag Reconciler §4.3; the helper
lives outside `src/`).  Each mapping entry becomes one key/value wire pair,
in the mapping's order. -/
def mapToTagsS3 (m : TagMap) : List S3Tag := m

/-- Modelled from the spec: `tagsToMapS3` (FetchTags conversion, Tag
Reconciler §4.3; the helper lives outside `src/`) converts the remote
wire-format tag list into the mapping representation; on duplicate keys
last-one-wins. -/
def tagsToMapS3 (tagSet : List S3Tag) : TagMap :=
  tagSet.foldl (fun m kv => m.filter (fun p => p.1 ≠ kv.1) ++ [kv]) []

/-- Modelled from the spec: `setTagsS3` (ReconcileTags, Tag Reconciler §4.3;
the helper lives outside `src/`) always performs a full-replace put of the
desired tag mapping, converted to wire format, addressed at the resource
identity; the gateway's error, if any, is returned. -/
def setTagsS3 (s3conn : Gateway) (d : ResourceData) : LifecycleResult :=
  let req := S3Request.putBucketTagging d.id (mapToTagsS3 d.tags)
  match s3conn.putBucketTagging d.id (mapToTagsS3 d.tags) with
  | some err => (Except.error err, d, [req])
  | none => (Except.ok (), d, [req])

/-- Modelled from the spec: `getTagSetS3` (FetchTags, Tag Reconciler §4.3;
the helper lives outside `src/`) retrieves the remote wire-format tag list
for the given identity, returning the gateway's answer. -/
def getTagSetS3 (s3conn : Gateway) (id : String) :
    Except GoError (List S3Tag) × List S3Request :=
  (s3conn.getBucketTagging id, [S3Request.getBucketTagging id])

/-- The tail of `resourceAwsS3BucketRead` after the existence check has been
classified (the fall-through path of the Go code): fetch the tag set for the
current id, on success write the converted mapping into the `tags` field. -/
def readTagsStep (s3conn : Gateway) (d : ResourceData)
    (trace : List S3Request) : LifecycleResult :=
  match getTagSetS3 s3conn d.id with
  | (Except.error err, reqs) => (Except.error err, d, trace ++ reqs)
  | (Except.ok tagSet, reqs) =>
      (Except.ok (), { d with tags := tagsToMapS3 tagSet }, trace ++ reqs)

/-- Embedding of `resourceAwsS3BucketRead`: HEAD the bucket at the current
id; on an `aws.APIError` with status 404 clear the id (`d.SetId("")`) and
fall through; on any other error return it wrapped with the bucket id; then
fetch the tag set and write it into the `tags` field. -/
def resourceAwsS3BucketRead (s3conn : Gateway) (d : ResourceData) :
    LifecycleResult :=
  let headReq := S3Request.headBucket d.id
  match s3conn.headBucket d.id with
  | some err =>
      if err.isAWSNotFound then
        readTagsStep s3conn { d with id := "" } [headReq]
      else
        (Except.error (GoError.strError
          ("error reading S3 bucket \"" ++ d.id ++ "\": " ++ err.errString)),
          d, [headReq])
  | none => readTagsStep s3conn d [headReq]

/-- Embedding of `updateWebsite`: from the fields `website`, `bucket`,
`index_document`, `error_document` alone, either put a website
configuration (index suffix present iff `index_document` is non-empty,
error key present iff `error_document` is non-empty) or unconditionally
delete the website configuration. -/
def updateWebsite (s3conn : Gateway) (d : ResourceData) : LifecycleResult :=
  let website := d.website
  let bucket := d.bucket
  let indexDocument := d.index_document
  let errorDocument := d.error_document
  if website then
    let indexSuffix := if indexDocument ≠ "" then some indexDocument else none
    let errorKey := if errorDocument ≠ "" then some errorDocument else none
    let putReq := S3Request.putBucketWebsite bucket indexSuffix errorKey
    match s3conn.putBucketWebsite bucket indexSuffix errorKey with
    | some err =>
        (Except.error (GoError.strError
          ("Error putting S3 website: " ++ err.errString)), d, [putReq])
    | none => (Except.ok (), d, [putReq])
  else
    let delReq := S3Request.deleteBucketWebsite bucket
    match s3conn.deleteBucketWebsite bucket with
    | some err =>
        (Except.error (GoError.strError
          ("Error deleting S3 website: " ++ err.errString)), d, [delReq])
    | none => (Except.ok (), d, [delReq])

/-- Embedding of `resourceAwsS3BucketUpdate`: tag reconciliation, then
website reconciliation, then Read; the first error is returned and aborts
the rest. -/
def resourceAwsS3BucketUpdate (s3conn : Gateway) (d : ResourceData) :
    LifecycleResult :=
  match setTagsS3 s3conn d with
  | (Except.error err, d1, reqs1) => (Except.error err, d1, reqs1)
  | (Except.ok _, d1, reqs1) =>
      match updateWebsite s3conn d1 with
      | (Except.error err, d2, reqs2) => (Except.error err, d2, reqs1 ++ reqs2)
      | (Except.ok _, d2, reqs2) =>
          match resourceAwsS3BucketRead s3conn d2 with
          | (r3, d3, reqs3) => (r3, d3, reqs1 ++ reqs2 ++ reqs3)

/-- Embedding of `resourceAwsS3BucketCreate`: build the CreateBucket request
from `bucket` and `acl`, adding a LocationConstraint exactly when the
configured region is not "us-east-1"; on failure wrap the error; on success
set the id to the bucket name and delegate to Update. -/
def resourceAwsS3BucketCreate (s3conn : Gateway) (awsRegion : String)
    (d : ResourceData) : LifecycleResult :=
  let bucket := d.bucket
  let acl := d.acl
  let locationConstraint : Option String :=
    if awsRegion ≠ "us-east-1" then some awsRegion else none
  let createReq := S3Request.createBucket bucket acl locationConstraint
  match s3conn.createBucket bucket acl locationConstraint with
  | some err =>
      (Except.error (GoError.strError
        ("Error creating S3 bucket: " ++ err.errString)), d, [createReq])
  | none =>
      match resourceAwsS3BucketUpdate s3conn { d with id := bucket } with
      | (r, d2, reqs) => (r, d2, createReq :: reqs)

/-- Embedding of `resourceAwsS3BucketDelete`: issue one DeleteBucket request
at the current id and return the gateway's error, if any, verbatim. -/
def resourceAwsS3BucketDelete (s3conn : Gateway) (d : ResourceData) :
    LifecycleResult :=
  let delReq := S3Request.deleteBucket d.id
  match s3conn.deleteBucket d.id with
  | some err => (Except.error err, d, [delReq])
  | none => (Except.ok (), d, [delReq])

/-- Whether the character list `needle` occurs contiguously inside `hay`. -/
def listHasSub (needle : List Char) : List Char → Bool
  | [] => needle.isEmpty
  | c :: rest => needle.isPrefixOf (c :: rest) || listHasSub needle rest

/-- A gateway on which every RPC succeeds and the remote tag set is empty. -/
def gwAllOk : Gateway where
  createBucket := fun _ _ _ => none
  headBucket := fun _ => none
  deleteBucket := fun _ => none
  putBucketWebsite := fun _ _ _ => none
  deleteBucketWebsite := fun _ => none
  getBucketTagging := fun _ => Except.ok []
  putBucketTagging := fun _ _ => none

/-- A gateway whose existence check reports the bucket absent (an
`aws.APIError` with status 404); every other RPC succeeds. -/
def gwHead404 : Gateway where
  createBucket := fun _ _ _ => none
  headBucket := fun _ => some (GoError.apiError 404 "Not Found")
  deleteBucket := fun _ => none
  putBucketWebsite := fun _ _ _ => none
  deleteBucketWebsite := fun _ => none
  getBucketTagging := fun _ => Except.ok []
  putBucketTagging := fun _ _ => none

/-- A gateway on which CreateBucket fails with the bare error "boom"; every
other RPC succeeds. -/
def gwCreateFail : Gateway where
  createBucket := fun _ _ _ => some (GoError.strError "boom")
  headBucket := fun _ => none
  deleteBucket := fun _ => none
  putBucketWebsite := fun _ _ _ => none
  deleteBucketWebsite := fun _ => none
  getBucketTagging := fun _ => Except.ok []
  putBucketTagging := fun _ _ => none

/-- The desired state of the spec's worked example (§8 Create-then-converge),
with the identity already assigned. -/
def dB1 : ResourceData where
  id := "b1"
  bucket := "b1"
  acl := "private"
  website := true
  index_document := "index.html"
  error_document := ""
  tags := [("env", "prod")]

/-- The same desired state with no identity assigned yet. -/
def dNew : ResourceData := { dB1 with id := "" }

/-- Neither branch of `updateWebsite` modifies the resource data record. -/
theorem updateWebsite_state_eq (s3conn : Gateway) (d : ResourceData) :
    (updateWebsite s3conn d).2.1 = d := by
  unfold updateWebsite
  by_cases hw : d.website <;> simp only [hw, ite_true, ite_false]
  · cases s3conn.putBucketWebsite d.bucket
      (if d.index_document ≠ "" then some d.index_document else none)
      (if d.error_document ≠ "" then some d.error_document else none) <;> simp
  · cases s3conn.deleteBucketWebsite d.bucket <;> simp

/-- C1: on every Read whose existence check fails, the outcome is classified
in exactly two ways.  If the error is the recognized not-found status (an
`aws.APIError` with HTTP 404), Read clears the identity to empty and
continues, still attempting the tag fetch (and returns no error when that
fetch succeeds); on any other error Read returns an error wrapping both the
identity and the underlying cause. -/
theorem read_existence_classification (s3conn : Gateway) (d : ResourceData)
    (e : GoError) (h : s3conn.headBucket d.id = some e) :
    if e.isAWSNotFound then
      (resourceAwsS3BucketRead s3conn d).2.1.id = "" ∧
      (resourceAwsS3BucketRead s3conn d).2.2 =
        [S3Request.headBucket d.id, S3Request.getBucketTagging ""] ∧
      (∀ ts, s3conn.getBucketTagging "" = Except.ok ts →
        (resourceAwsS3BucketRead s3conn d).1 = Except.ok ())
    else
      (resourceAwsS3BucketRead s3conn d).1 =
        Except.error (GoError.strError
          ("error reading S3 bucket \"" ++ d.id ++ "\": " ++ e.errString)) := by
  unfold resourceAwsS3BucketRead readTagsStep getTagSetS3
  rw [h]
  by_cases h404 : e.isAWSNotFound <;> simp only [h404, ite_true, ite_false]
  · cases hts : s3conn.getBucketTagging "" <;> simp [hts]
  · simp

/-- Witness for C1: on a gateway whose existence check returns 404, Read at
identity "b1" clears the identity, issues the head request and then the tag
fetch, and returns no error. -/
theorem read_existence_classification_witness :
    (resourceAwsS3BucketRead gwHead404 dB1).2.1.id = "" ∧
    (resourceAwsS3BucketRead gwHead404 dB1).2.2 =
      [S3Request.headBucket "b1", S3Request.getBucketTagging ""] ∧
    (∀ ts, gwHead404.getBucketTagging "" = Except.ok ts →
      (resourceAwsS3BucketRead gwHead404 dB1).1 = Except.ok ()) := by
  have h := read_existence_classification gwHead404 dB1
    (GoError.apiError 404 "Not Found") rfl
  simpa using h

/-- C2: every Create issues a CreateBucket request whose location constraint
is present iff the configured region differs from "us-east-1", and then
equals exactly the configured region string. -/
theorem create_request_location_constraint (s3conn : Gateway)
    (awsRegion : String) (d : ResourceData) :
    ((resourceAwsS3BucketCreate s3conn awsRegion d).2.2).head? =
      some (S3Request.createBucket d.bucket d.acl
        (if awsRegion = "us-east-1" then none else some awsRegion)) := by
  unfold resourceAwsS3BucketCreate
  by_cases h : awsRegion = "us-east-1" <;>
    simp only [h, ne_eq, not_true_eq_false, not_false_eq_true, ite_true,
      ite_false]
  · cases s3conn.createBucket d.bucket d.acl none with
    | some e => simp
    | none =>
        rcases hru : resourceAwsS3BucketUpdate s3conn { d with id := d.bucket }
          with ⟨r, d2, reqs⟩
        simp [hru]
  · cases s3conn.createBucket d.bucket d.acl (some awsRegion) with
    | some e => simp
    | none =>
        rcases hru : resourceAwsS3BucketUpdate s3conn { d with id := d.bucket }
          with ⟨r, d2, reqs⟩
        simp [hru]

/-- C3: every Update runs tag reconciliation, then website reconciliation,
then Read, in that order, and the first failing sub-step aborts the call
with its error: a tag error leaves only the tag request issued; a website
error leaves only the tag and website requests issued; when both succeed the
call's outcome is Read's outcome, after all three request groups. -/
theorem update_order_fail_fast (s3conn : Gateway) (d : ResourceData) :
    (∀ e, (setTagsS3 s3conn d).1 = Except.error e →
        resourceAwsS3BucketUpdate s3conn d =
          (Except.error e, d,
            [S3Request.putBucketTagging d.id (mapToTagsS3 d.tags)])) ∧
    (∀ e, (setTagsS3 s3conn d).1 = Except.ok () →
        (updateWebsite s3conn d).1 = Except.error e →
        resourceAwsS3BucketUpdate s3conn d =
          (Except.error e, d,
            S3Request.putBucketTagging d.id (mapToTagsS3 d.tags)
              :: (updateWebsite s3conn d).2.2)) ∧
    ((setTagsS3 s3conn d).1 = Except.ok () →
        (updateWebsite s3conn d).1 = Except.ok () →
        resourceAwsS3BucketUpdate s3conn d =
          ((resourceAwsS3BucketRead s3conn d).1,
            (resourceAwsS3BucketRead s3conn d).2.1,
            S3Request.putBucketTagging d.id (mapToTagsS3 d.tags)
              :: (updateWebsite s3conn d).2.2
              ++ (resourceAwsS3BucketRead s3conn d).2.2)) := by
  have hws := updateWebsite_state_eq s3conn d
  refine ⟨?_, ?_, ?_⟩
  · intro e he
    unfold resourceAwsS3BucketUpdate
    unfold setTagsS3 at he ⊢
    cases hpt : s3conn.putBucketTagging d.id (mapToTagsS3 d.tags) <;> simp_all
  · intro e ht he
    unfold resourceAwsS3BucketUpdate
    unfold setTagsS3 at ht ⊢
    cases hpt : s3conn.putBucketTagging d.id (mapToTagsS3 d.tags)
    · rcases huw : updateWebsite s3conn d with ⟨ruw, duw, requw⟩
      rw [huw] at he hws
      simp only at he hws
      subst he hws
      simp [huw]
    · rw [hpt] at ht
      simp at ht
  · intro ht hu
    unfold resourceAwsS3BucketUpdate
    unfold setTagsS3 at ht ⊢
    cases hpt : s3conn.putBucketTagging d.id (mapToTagsS3 d.tags)
    · rcases huw : updateWebsite s3conn d with ⟨ruw, duw, requw⟩
      rw [huw] at hu hws
      simp only at hu hws
      subst hu
      rcases hrd : resourceAwsS3BucketRead s3conn d with ⟨r3, d3, reqs3⟩
      simp [huw, hws, hrd]
    · rw [hpt] at ht
      simp at ht

/-- Witness for C3: on an all-success gateway, Update on the worked example
runs all three sub-steps in order and returns Read's outcome. -/
theorem update_order_fail_fast_witness :
    resourceAwsS3BucketUpdate gwAllOk dB1 =
      ((resourceAwsS3BucketRead gwAllOk dB1).1,
        (resourceAwsS3BucketRead gwAllOk dB1).2.1,
        S3Request.putBucketTagging "b1" (mapToTagsS3 dB1.tags)
          :: (updateWebsite gwAllOk dB1).2.2
          ++ (resourceAwsS3BucketRead gwAllOk dB1).2.2) :=
  (update_order_fail_fast gwAllOk dB1).2.2 rfl rfl

/-- C4: the website reconciler's action is a pure function of the input
fields and of no remote state: its request trace is always exactly one
request, a put-website-configuration when `website` is true (index suffix
present iff `index_document` is non-empty, error key present iff
`error_document` is non-empty, an empty configuration still being submitted
when both are empty), and unconditionally a delete-website-configuration
when `website` is false — independent of every gateway response. -/
theorem updateWebsite_request (s3conn : Gateway) (d : ResourceData) :
    (updateWebsite s3conn d).2.2 =
      [if d.website then
         S3Request.putBucketWebsite d.bucket
           (if d.index_document ≠ "" then some d.index_document else none)
           (if d.error_document ≠ "" then some d.error_document else none)
       else S3Request.deleteBucketWebsite d.bucket] := by
  unfold updateWebsite
  by_cases hw : d.website <;> simp only [hw, ite_true, ite_false]
  · cases s3conn.putBucketWebsite d.bucket
      (if d.index_document ≠ "" then some d.index_document else none)
      (if d.error_document ≠ "" then some d.error_document else none) <;> simp
  · cases s3conn.deleteBucketWebsite d.bucket <;> simp

/-- C5: every Create whose CreateBucket request succeeds assigns the
identity to be exactly the bucket name and then delegates to Update, so that
its result and final state are those of that Update. -/
theorem create_success_assigns_name_then_update (s3conn : Gateway)
    (awsRegion : String) (d : ResourceData)
    (h : s3conn.createBucket d.bucket d.acl
        (if awsRegion ≠ "us-east-1" then some awsRegion else none) = none) :
    resourceAwsS3BucketCreate s3conn awsRegion d =
      ((resourceAwsS3BucketUpdate s3conn { d with id := d.bucket }).1,
       (resourceAwsS3BucketUpdate s3conn { d with id := d.bucket }).2.1,
       S3Request.createBucket d.bucket d.acl
           (if awsRegion ≠ "us-east-1" then some awsRegion else none)
         :: (resourceAwsS3BucketUpdate s3conn { d with id := d.bucket }).2.2) := by
  unfold resourceAwsS3BucketCreate
  simp only [h]

/-- Witness for C5: on an all-success gateway in the default region, Create
of the worked example assigns id "b1" and returns that Update's outcome. -/
theorem create_success_assigns_name_then_update_witness :
    resourceAwsS3BucketCreate gwAllOk "us-east-1" dNew =
      ((resourceAwsS3BucketUpdate gwAllOk { dNew with id := "b1" }).1,
       (resourceAwsS3BucketUpdate gwAllOk { dNew with id := "b1" }).2.1,
       S3Request.createBucket "b1" "private" none
         :: (resourceAwsS3BucketUpdate gwAllOk { dNew with id := "b1" }).2.2) :=
  create_success_assigns_name_then_update gwAllOk "us-east-1" dNew rfl

/-- Counterexample to C6: when CreateBucket for bucket "b1" fails with the
underlying error "boom", Create returns the error message
"Error creating S3 bucket: boom", in which the bucket name "b1" does not
occur — the error is not tagged with the bucket name — though the identity
record is indeed unchanged. -/
theorem create_failure_no_bucket_name :
    (resourceAwsS3BucketCreate gwCreateFail "us-east-1" dNew).1 =
      Except.error (GoError.strError "Error creating S3 bucket: boom") ∧
    listHasSub dNew.bucket.data "Error creating S3 bucket: boom".data = false ∧
    (resourceAwsS3BucketCreate gwCreateFail "us-east-1" dNew).2.1 = dNew := by
  refine ⟨rfl, by decide, rfl⟩

/-- C6 (amended): every Create whose CreateBucket request fails returns an
error that wraps the underlying cause under the fixed text
"Error creating S3 bucket: " (the bucket name is not included), and the
resource data — in particular the identity — is unchanged. -/
theorem create_failure_wraps_cause (s3conn : Gateway) (awsRegion : String)
    (d : ResourceData) (e : GoError)
    (h : s3conn.createBucket d.bucket d.acl
        (if awsRegion ≠ "us-east-1" then some awsRegion else none) = some e) :
    resourceAwsS3BucketCreate s3conn awsRegion d =
      (Except.error (GoError.strError
          ("Error creating S3 bucket: " ++ e.errString)),
       d,
       [S3Request.createBucket d.bucket d.acl
          (if awsRegion ≠ "us-east-1" then some awsRegion else none)]) := by
  unfold resourceAwsS3BucketCreate
  simp only [h]

/-- Witness for the amended C6: with CreateBucket failing with "boom",
Create returns the wrapped cause and leaves the record unchanged. -/
theorem create_failure_wraps_cause_witness :
    resourceAwsS3BucketCreate gwCreateFail "us-east-1" dNew =
      (Except.error (GoError.strError "Error creating S3 bucket: boom"),
       dNew,
       [S3Request.createBucket "b1" "private" none]) :=
  create_failure_wraps_cause gwCreateFail "us-east-1" dNew
    (GoError.strError "boom") rfl

/-- C7: every Delete issues exactly one DeleteBucket request at the current
identity, never modifies the resource data record, and returns the gateway's
answer verbatim: the unwrapped error on failure, success on success, with no
retry and no special-casing of an already-gone bucket. -/
theorem delete_single_request_verbatim (s3conn : Gateway) (d : ResourceData) :
    (resourceAwsS3BucketDelete s3conn d).2.2 = [S3Request.deleteBucket d.id] ∧
    (resourceAwsS3BucketDelete s3conn d).2.1 = d ∧
    (resourceAwsS3BucketDelete s3conn d).1 =
      (match s3conn.deleteBucket d.id with
       | some e => Except.error e
       | none => Except.ok ()) := by
  unfold resourceAwsS3BucketDelete
  cases s3conn.deleteBucket d.id <;> simp

/-- Counterexample to C8: Delete with an empty identity does not return a
precondition error — on a gateway that accepts the request it silently
proceeds, issuing a DeleteBucket request addressed at the empty string and
returning success. -/
theorem delete_empty_id_silently_proceeds :
    (resourceAwsS3BucketDelete gwAllOk dNew).1 = Except.ok () ∧
    (resourceAwsS3BucketDelete gwAllOk dNew).2.2 =
      [S3Request.deleteBucket ""] :=
  ⟨rfl, rfl⟩

/-- C8 (amended): no precondition is validated.  Update and Delete invoked
with an empty identity proceed and issue their gateway requests addressed at
the empty identity, and Create invoked with an identity already assigned
proceeds and issues its CreateBucket request; none of them returns a
precondition error. -/
theorem no_precondition_validation (s3conn : Gateway) (awsRegion : String)
    (d : ResourceData) :
    (d.id = "" →
      (resourceAwsS3BucketDelete s3conn d).2.2 = [S3Request.deleteBucket ""] ∧
      ((resourceAwsS3BucketUpdate s3conn d).2.2).head? =
        some (S3Request.putBucketTagging "" (mapToTagsS3 d.tags))) ∧
    (d.id ≠ "" →
      ((resourceAwsS3BucketCreate s3conn awsRegion d).2.2).head? =
        some (S3Request.createBucket d.bucket d.acl
          (if awsRegion ≠ "us-east-1" then some awsRegion else none))) := by
  constructor
  · intro hid
    constructor
    · unfold resourceAwsS3BucketDelete
      rw [hid]
      cases s3conn.deleteBucket "" <;> simp
    · unfold resourceAwsS3BucketUpdate setTagsS3
      rw [hid]
      cases s3conn.putBucketTagging "" (mapToTagsS3 d.tags)
      · rcases huw : updateWebsite s3conn d with ⟨ruw, duw, requw⟩
        cases ruw
        · rcases hrd : resourceAwsS3BucketRead s3conn duw with ⟨r3, d3, reqs3⟩
          simp [huw, hrd]
        · simp [huw]
      · simp
  · intro hid
    unfold resourceAwsS3BucketCreate
    by_cases hr : awsRegion = "us-east-1" <;>
      simp only [hr, ne_eq, not_true_eq_false, not_false_eq_true, ite_true,
        ite_false]
    · cases h2 : s3conn.createBucket d.bucket d.acl none
      · rcases hru : resourceAwsS3BucketUpdate s3conn { d with id := d.bucket }
          with ⟨r, d2, reqs⟩
        simp [h2, hru]
      · simp [h2]
    · cases h2 : s3conn.createBucket d.bucket d.acl (some awsRegion)
      · rcases hru : resourceAwsS3BucketUpdate s3conn { d with id := d.bucket }
          with ⟨r, d2, reqs⟩
        simp [h2, hru]
      · simp [h2]

/-- Witness for the amended C8: Delete and Update with empty identity issue
their requests at "", and Create with identity "b1" already assigned still
issues its CreateBucket request. -/
theorem no_precondition_validation_witness :
    ((resourceAwsS3BucketDelete gwAllOk dNew).2.2 =
        [S3Request.deleteBucket ""] ∧
      ((resourceAwsS3BucketUpdate gwAllOk dNew).2.2).head? =
        some (S3Request.putBucketTagging "" (mapToTagsS3 dNew.tags))) ∧
    ((resourceAwsS3BucketCreate gwAllOk "us-east-1" dB1).2.2).head? =
      some (S3Request.createBucket "b1" "private" none) :=
  ⟨(no_precondition_validation gwAllOk "us-east-1" dNew).1 rfl,
   (no_precondition_validation gwAllOk "us-east-1" dB1).2 (by decide)⟩

/-- C9: every Read leaves all desired-state fields (`bucket`, `acl`,
`website`, `index_document`, `error_document`) unchanged; the identity is
cleared exactly when the existence check returned the not-found status and
is otherwise unchanged — so the only fields Read writes are the observed
tags and, in the not-found case, the identity.  Determinism with respect to
the gateway's responses holds because Read is a function of the gateway and
the record. -/
theorem read_frame (s3conn : Gateway) (d : ResourceData) :
    ((resourceAwsS3BucketRead s3conn d).2.1.bucket = d.bucket ∧
     (resourceAwsS3BucketRead s3conn d).2.1.acl = d.acl ∧
     (resourceAwsS3BucketRead s3conn d).2.1.website = d.website ∧
     (resourceAwsS3BucketRead s3conn d).2.1.index_document =
       d.index_document ∧
     (resourceAwsS3BucketRead s3conn d).2.1.error_document =
       d.error_document) ∧
    (resourceAwsS3BucketRead s3conn d).2.1.id =
      (match s3conn.headBucket d.id with
       | some e => if e.isAWSNotFound then "" else d.id
       | none => d.id) := by
  unfold resourceAwsS3BucketRead readTagsStep getTagSetS3
  cases s3conn.headBucket d.id with
  | none => cases s3conn.getBucketTagging d.id <;> simp
  | some e =>
      by_cases h : e.isAWSNotFound <;> simp only [h, ite_true, ite_false]
      · cases s3conn.getBucketTagging "" <;> simp
      · simp

/-- C10: on every Read whose existence check returns the not-found status,
the tag fetch that Read still attempts is addressed at the already-cleared
empty identity, not at the original bucket identity: the request trace is
the head request at the original identity followed by a tag-get at "". -/
theorem read_notfound_tag_fetch_cleared_id (s3conn : Gateway)
    (d : ResourceData) (e : GoError) (h : s3conn.headBucket d.id = some e)
    (h404 : e.isAWSNotFound = true) :
    (resourceAwsS3BucketRead s3conn d).2.2 =
      [S3Request.headBucket d.id, S3Request.getBucketTagging ""] := by
  unfold resourceAwsS3BucketRead readTagsStep getTagSetS3
  rw [h]
  simp only [h404, ite_true]
  cases s3conn.getBucketTagging "" <;> simp

/-- Witness for C10: on the 404 gateway, Read at identity "b1" issues the
head request at "b1" and then the tag fetch at the empty identity. -/
theorem read_notfound_tag_fetch_cleared_id_witness :
    (resourceAwsS3BucketRead gwHead404 dB1).2.2 =
      [S3Request.headBucket "b1", S3Request.getBucketTagging ""] :=
  read_notfound_tag_fetch_cleared_id gwHead404 dB1
    (GoError.apiError 404 "Not Found") rfl rfl
